import Mathlib

/-!
Verification development for the emulator orchestration core
(`src/xenia/emulator.cc`): subsystem setup sequencing (`Emulator::Setup`),
the host-exception dispatch policy (`Emulator::ExceptionCallback`),
launch-path classification (`Emulator::LaunchPath`), filesystem mounting for
the three launch variants (`Emulator::LaunchXexFile`,
`Emulator::LaunchDiscImage`, `Emulator::LaunchStfsContainer`), and the
iterative module-load chain (`Emulator::CompleteLaunch`).

The embedding is shallow: each routine becomes a pure Lean function over an
explicit environment describing the outcomes of its external collaborators
(memory init, factories, device init/registration, module launches), and
produces the status it would return together with the externally observable
effects (symlink registrations, launch targets, thread suspensions, dialog
round-trips, loader-field writes).
-/

set_option autoImplicit false

namespace xe

/-- Status codes. Modelled from the spec: the concrete `X_STATUS` typedef
lives outside this tree, but the spec fixes a small vocabulary (success,
generic failure, feature-not-implemented, file-not-found) and the code relies
on `X_STATUS` being an integral NT-style status whose success value is zero
(`CompleteLaunch` maps a zero `int` result to `X_STATUS_SUCCESS`, and `Setup`
tests statuses for truthiness with `if (result)`). We model it as `Nat` with
the standard NTSTATUS values. -/
abbrev X_STATUS := Nat

def X_STATUS_SUCCESS : X_STATUS := 0
def X_STATUS_UNSUCCESSFUL : X_STATUS := 0xC0000001
def X_STATUS_NOT_IMPLEMENTED : X_STATUS := 0xC0000002
def X_STATUS_NO_SUCH_FILE : X_STATUS := 0xC000000F

/-- C++ implicit conversion of a `bool` to the integral `X_STATUS`
(`false` converts to `0`).  `Emulator::Setup` contains `return false;` on
the memory-initialization failure path (emulator.cc line 103). -/
def boolToXStatus (b : Bool) : X_STATUS := if b then 1 else 0

/-! ## `Emulator::Setup` (emulator.cc lines 76-189)

The environment records the outcome of each fallible external step; the
state records which owned subsystem pointers are non-null (and whether
memory initialized, kernel modules loaded, and the exception hook was
installed) at the moment `Setup` returns. -/

structure SetupEnv where
  flags_debug : Bool
  memory_init_ok : Bool
  processor_setup_ok : Bool
  audio_factory_supplied : Bool
  audio_factory_nonnull : Bool
  graphics_factory_nonnull : Bool
  input_setup_status : X_STATUS
  graphics_setup_status : X_STATUS
  audio_setup_status : X_STATUS
deriving DecidableEq, Repr

structure EmuState where
  memory : Bool
  memory_initialized : Bool
  export_resolver : Bool
  debugger : Bool
  processor : Bool
  audio_system : Bool
  graphics_system : Bool
  input_system : Bool
  file_system : Bool
  kernel_state : Bool
  kernel_modules_loaded : Bool
  exception_hook_installed : Bool
deriving DecidableEq, Repr

def EmuState.initial : EmuState :=
  { memory := false, memory_initialized := false, export_resolver := false
    debugger := false, processor := false, audio_system := false
    graphics_system := false, input_system := false, file_system := false
    kernel_state := false, kernel_modules_loaded := false
    exception_hook_installed := false }

/-- Shallow embedding of `Emulator::Setup`.  Mirrors the source line by
line: memory first (note the literal `return false;` on its failure path,
which converts to status `0`), then export resolver, optional debugger,
processor, optional audio factory, graphics factory, input system and its
setup, filesystem, kernel state, graphics setup, audio setup, kernel
modules, and the exception hook installed last. -/
def Setup (e : SetupEnv) : X_STATUS × EmuState :=
  -- X_STATUS result = X_STATUS_UNSUCCESSFUL; (overwritten before every use)
  let s := { EmuState.initial with
             memory := true, memory_initialized := e.memory_init_ok }
  if !e.memory_init_ok then
    -- `return false;` — bool converted to the integral status
    (boolToXStatus false, s)
  else
  let s := { s with export_resolver := true }
  let s := if e.flags_debug then { s with debugger := true } else s
  let s := { s with processor := true }
  if !e.processor_setup_ok then (X_STATUS_UNSUCCESSFUL, s)
  else
  let s := if e.audio_factory_supplied
           then { s with audio_system := e.audio_factory_nonnull } else s
  if e.audio_factory_supplied && !e.audio_factory_nonnull then
    (X_STATUS_NOT_IMPLEMENTED, s)
  else
  let s := { s with graphics_system := e.graphics_factory_nonnull }
  if !e.graphics_factory_nonnull then (X_STATUS_NOT_IMPLEMENTED, s)
  else
  let s := { s with input_system := true }
  if !s.input_system then (X_STATUS_NOT_IMPLEMENTED, s)
  else
  let result := e.input_setup_status
  if result ≠ 0 then (result, s)
  else
  let s := { s with file_system := true, kernel_state := true }
  let result := e.graphics_setup_status
  if result ≠ 0 then (result, s)
  else
  let result := if s.audio_system then e.audio_setup_status else result
  if result ≠ 0 then (result, s)
  else
  let s := { s with kernel_modules_loaded := true,
                    exception_hook_installed := true }
  (result, s)

/-! ## `Emulator::LaunchPath` (emulator.cc lines 191-210)

Paths are lists of characters; the platform path-separator character is a
parameter.  `std::wstring::npos` is modelled as `Option Nat` with `none`
playing the role of `npos` (the maximal value) in comparisons. -/

/-- Index of the last occurrence of `c` (C++ `find_last_of` with a single
character), `none` standing for `npos`. -/
def findLastOf : List Char → Char → Option Nat
  | [], _ => none
  | x :: xs, c =>
    match findLastOf xs c with
    | some i => some (i + 1)
    | none => if x = c then some 0 else none

/-- The C++ `<` on `size_t` where `none` models `npos` (the maximal value):
`npos < j` is false for every `j`, and `i < npos` is true for every actual
index `i`. -/
def nposLT : Option Nat → Option Nat → Bool
  | some a, some b => decide (a < b)
  | some _, none => true
  | none, _ => false

inductive LaunchKind where
  | stfsContainer
  | xexFile
  | discImage
deriving DecidableEq, Repr

/-- Shallow embedding of the classification in `Emulator::LaunchPath`:
compute `last_slash` and `last_dot`, discard `last_dot` when
`last_dot < last_slash` (npos semantics), then dispatch on the remaining
extension (`.xex` / `.elf` → bare module, other extension → disc image,
no extension → container). -/
def LaunchPathClassify (sep : Char) (path : List Char) : LaunchKind :=
  let last_slash := findLastOf path sep
  let last_dot0 := findLastOf path '.'
  let last_dot := if nposLT last_dot0 last_slash then none else last_dot0
  match last_dot with
  | none => .stfsContainer
  | some i =>
    if path.drop i = (".xex").toList ∨ path.drop i = (".elf").toList then
      .xexFile
    else
      .discImage

/-- Classification following the amended spec wording: a path with no dot,
or with no path separator, or whose last dot precedes the last separator,
is a container image; otherwise dispatch on the extension. -/
def LaunchPathClassifyAmendedSpec (sep : Char) (path : List Char) : LaunchKind :=
  match findLastOf path '.', findLastOf path sep with
  | none, _ => .stfsContainer
  | some _, none => .stfsContainer
  | some i, some d =>
    if i < d then .stfsContainer
    else if path.drop i = (".xex").toList ∨ path.drop i = (".elf").toList then
      .xexFile
    else
      .discImage

/-! ## The three launch variants (emulator.cc lines 212-289) -/

def kMountPathHdd : String := "\\Device\\Harddisk0\\Partition0"
def kMountPathCdrom : String := "\\Device\\Cdrom0"

/-- Modelled from the spec: `xe::find_name_from_path` (xenia/base/string,
not under `src/`) returns "the file's own name", i.e. the component after
the last path separator (the whole path when it has no separator). -/
def find_name_from_path (sep : Char) (path : List Char) : List Char :=
  match findLastOf path sep with
  | none => path
  | some i => path.drop (i + 1)

/-- Outcomes of the two fallible mount steps of a launch variant. -/
structure MountEnv where
  device_init_ok : Bool
  register_ok : Bool
deriving DecidableEq, Repr

/-- Observable effects of one launch variant: the early-return status
(`none` when the variant instead delegates to `CompleteLaunch`), the
symbolic links registered, the module path handed to `CompleteLaunch`
(`none` when no launch is attempted), and whether an error was logged /
a user-visible fatal notice raised. -/
structure MountOutcome where
  status : Option X_STATUS
  symlinks : List (String × String)
  target : Option String
  logged_error : Bool
  fatal_notice : Bool
deriving DecidableEq, Repr

/-- Shallow embedding of `Emulator::LaunchXexFile`: host-path device under
the hard-disk mount point; on device-init or registration failure only an
error is logged and `X_STATUS_NO_SUCH_FILE` returned; on success `game:`
and `d:` are linked to the mount point and
`CompleteLaunch(path, "game:\" + file name)` is invoked. -/
def LaunchXexFile (env : MountEnv) (sep : Char) (path : List Char) :
    MountOutcome :=
  if !env.device_init_ok then
    { status := some X_STATUS_NO_SUCH_FILE, symlinks := [], target := none
      logged_error := true, fatal_notice := false }
  else if !env.register_ok then
    { status := some X_STATUS_NO_SUCH_FILE, symlinks := [], target := none
      logged_error := true, fatal_notice := false }
  else
    { status := none
      symlinks := [("game:", kMountPathHdd), ("d:", kMountPathHdd)]
      target := some ("game:\\" ++ String.mk (find_name_from_path sep path))
      logged_error := false, fatal_notice := false }

/-- Shallow embedding of `Emulator::LaunchDiscImage`: disc-image device
under the CD-ROM mount point; failures raise a user-visible fatal notice
and return `X_STATUS_NO_SUCH_FILE`; on success `game:` and `d:` are linked
to the mount point and `CompleteLaunch(path, "game:\default.xex")` is
invoked. -/
def LaunchDiscImage (env : MountEnv) : MountOutcome :=
  if !env.device_init_ok then
    { status := some X_STATUS_NO_SUCH_FILE, symlinks := [], target := none
      logged_error := false, fatal_notice := true }
  else if !env.register_ok then
    { status := some X_STATUS_NO_SUCH_FILE, symlinks := [], target := none
      logged_error := false, fatal_notice := true }
  else
    { status := none
      symlinks := [("game:", kMountPathCdrom), ("d:", kMountPathCdrom)]
      target := some "game:\\default.xex"
      logged_error := false, fatal_notice := false }

/-- Shallow embedding of `Emulator::LaunchStfsContainer`: container device
under the CD-ROM mount point; same shape as the disc-image variant. -/
def LaunchStfsContainer (env : MountEnv) : MountOutcome :=
  if !env.device_init_ok then
    { status := some X_STATUS_NO_SUCH_FILE, symlinks := [], target := none
      logged_error := false, fatal_notice := true }
  else if !env.register_ok then
    { status := some X_STATUS_NO_SUCH_FILE, symlinks := [], target := none
      logged_error := false, fatal_notice := true }
  else
    { status := none
      symlinks := [("game:", kMountPathCdrom), ("d:", kMountPathCdrom)]
      target := some "game:\\default.xex"
      logged_error := false, fatal_notice := false }

/-! ## `Emulator::ExceptionCallback` (emulator.cc lines 295-349) -/

structure DebuggerObj where
  is_attached : Bool
deriving DecidableEq, Repr

structure GuestThread where
  tid : Nat
  can_debugger_suspend : Bool
deriving DecidableEq, Repr

/-- Environment of one invocation of the exception callback: the (possibly
null) debugger object, whether a foreign debugger is attached to the
process, the answer the debugger would give from `OnUnhandledException`,
the code-cache region, the faulting program counter, the guest thread
objects in the kernel object table, and the faulting thread's identity. -/
structure ExcEnv where
  debugger : Option DebuggerObj
  foreign_attached : Bool
  debugger_decision : Bool
  code_base : Nat
  code_size : Nat
  pc : Nat
  threads : List GuestThread
  current_tid : Nat
deriving DecidableEq, Repr

/-- C++ `debugger() && debugger()->is_attached()`. -/
def ownDebuggerAttached (e : ExcEnv) : Bool :=
  match e.debugger with
  | none => false
  | some d => d.is_attached

/-- Observable effects of one callback invocation: the boolean the function
returns (the containment path's trailing `return false` sits behind an
unreachable-state assertion), the other threads suspended (in iteration
order), whether the faulting thread suspended itself, and how many
synchronous dialog round-trips to the display thread were posted. -/
structure ExcOutcome where
  result : Bool
  suspended_other : List Nat
  self_suspended : Bool
  dialogs : Nat
deriving DecidableEq, Repr

/-- Shallow embedding of `Emulator::ExceptionCallback`.  Branches, in
source order: (1) `!debugger() || (!debugger()->is_attached() &&
debugging::IsDebuggerAttached())` returns not-handled; (2) an attached own
debugger delegates; (3) a program counter outside
`[code_base, code_base + total_size)` returns not-handled; (4) otherwise
guest-crash containment: suspend every debugger-suspendable guest thread
other than the current one, one synchronous dialog round-trip, then suspend
the current thread. -/
def ExceptionCallback (e : ExcEnv) : ExcOutcome :=
  let code_end := e.code_base + e.code_size
  if e.debugger.isNone || (!ownDebuggerAttached e && e.foreign_attached) then
    { result := false, suspended_other := [], self_suspended := false
      dialogs := 0 }
  else if e.debugger.isSome && ownDebuggerAttached e then
    { result := e.debugger_decision, suspended_other := []
      self_suspended := false, dialogs := 0 }
  else if ¬(e.code_base ≤ e.pc ∧ e.pc < code_end) then
    { result := false, suspended_other := [], self_suspended := false
      dialogs := 0 }
  else
    { result := false
      suspended_other :=
        (e.threads.filter fun t =>
          t.can_debugger_suspend && t.tid != e.current_tid).map
          fun t => t.tid
      self_suspended := true
      dialogs := 1 }

/-! ## `Emulator::CompleteLaunch` (emulator.cc lines 351-378)

The behaviour of the external collaborators — `xboxkrnl->LaunchModule` and
the xam loader field it may write during that call — is an oracle: a script
listing, per launch, the integer result returned and the value held by
`loader_data.launch_path` when the launch returns.  A run that needs more
launches than the script describes is undefined (`none`). -/

structure LaunchStep where
  result : Int
  requested : String
deriving DecidableEq, Repr

def statusOfResult (r : Int) : X_STATUS :=
  if r = 0 then X_STATUS_SUCCESS else X_STATUS_UNSUCCESSFUL

/-- Observable outcome of a terminating `CompleteLaunch` run: the returned
status, the final value of the shared `launch_path` loader field, the
number of loop iterations (= module-launch invocations), the launch
results in order, and the value of the loader field at the end of each
iteration (after the driver's clearing write). -/
structure CCOutcome where
  status : X_STATUS
  final_launch_path : String
  iterations : Nat
  results : List Int
  post_states : List String
deriving DecidableEq, Repr

/-- One unrolling of the `while (next_module != "")` loop.  Each iteration
launches the current module (consuming one script step), reads the loader
field (the step's `requested` value), and blanks the field before the next
emptiness check. -/
def ccGo : List LaunchStep → String → String → Int → Option CCOutcome
  | [], next_module, loader_path, result =>
    if next_module = "" then
      some { status := statusOfResult result
             final_launch_path := loader_path
             iterations := 0, results := [], post_states := [] }
    else none
  | step :: rest, next_module, loader_path, result =>
    if next_module = "" then
      some { status := statusOfResult result
             final_launch_path := loader_path
             iterations := 0, results := [], post_states := [] }
    else
      (ccGo rest step.requested "" step.result).map fun o =>
        { o with iterations := o.iterations + 1
                 results := step.result :: o.results
                 post_states := "" :: o.post_states }

/-- Shallow embedding of `Emulator::CompleteLaunch`: run the loop from the
given first module path and initial loader-field value, with
`int result = 0`, and map the final result through
`result == 0 ? X_STATUS_SUCCESS : X_STATUS_UNSUCCESSFUL`. -/
def CompleteLaunch (script : List LaunchStep) (module_path : String)
    (loader_path : String) : Option CCOutcome :=
  ccGo script module_path loader_path 0

/-! ## Concrete environments used by witnesses and counterexamples -/

/-- Exception environment with a null debugger, no foreign debugger, and a
program counter inside the guest code region. -/
def c1NullDebuggerEnv : ExcEnv :=
  { debugger := none, foreign_attached := false, debugger_decision := false
    code_base := 0, code_size := 16, pc := 4
    threads := [⟨1, true⟩], current_tid := 0 }

/-- Exception environment with a constructed-but-unattached debugger, no
foreign debugger, and a program counter inside the guest code region. -/
def c1WitnessEnv : ExcEnv :=
  { debugger := some ⟨false⟩, foreign_attached := false
    debugger_decision := false, code_base := 0, code_size := 16, pc := 4
    threads := [⟨1, true⟩, ⟨2, false⟩, ⟨0, true⟩], current_tid := 0 }

/-- Exception environment with no debugger of any kind and a program
counter outside the guest code region. -/
def c7Env : ExcEnv :=
  { debugger := none, foreign_attached := false, debugger_decision := false
    code_base := 0x100, code_size := 0x10, pc := 0
    threads := [⟨1, true⟩], current_tid := 0 }

/-- Setup environment in which only memory initialization fails. -/
def setupMemFailEnv : SetupEnv :=
  { flags_debug := false, memory_init_ok := false, processor_setup_ok := true
    audio_factory_supplied := false, audio_factory_nonnull := false
    graphics_factory_nonnull := true, input_setup_status := 0
    graphics_setup_status := 0, audio_setup_status := 0 }

/-- Outcome of a two-launch chain whose first launch fails (result 5) and
redirects, and whose second launch succeeds without redirecting. -/
def ccOutcomeChainEx : CCOutcome :=
  { status := X_STATUS_SUCCESS, final_launch_path := "", iterations := 2
    results := [5, 0], post_states := ["", ""] }

/-- Outcome of a single non-chaining launch. -/
def ccOutcomeSingleEx : CCOutcome :=
  { status := X_STATUS_SUCCESS, final_launch_path := "", iterations := 1
    results := [0], post_states := [""] }

/-! ## Helper lemmas about the module-load loop -/

/-- The loop exits immediately when the current module path is empty,
leaving the loader field untouched. -/
theorem ccGo_loop_done (script : List LaunchStep) (ld : String) (r : Int) :
    ccGo script "" ld r =
      some { status := statusOfResult r, final_launch_path := ld
             iterations := 0, results := [], post_states := [] } := by
  cases script <;> simp [ccGo]

/-- The status of a terminating run is the status of the last launch
result (defaulting to the initial `result` value when no launch ran). -/
theorem ccGo_status_last (script : List LaunchStep) :
    ∀ (next ld : String) (r : Int) (o : CCOutcome),
      ccGo script next ld r = some o →
        o.status = statusOfResult (o.results.getLastD r) := by
  induction script with
  | nil =>
    intro next ld r o h
    simp only [ccGo] at h
    split at h
    · injection h with h
      subst h
      rfl
    · simp at h
  | cons step rest ih =>
    intro next ld r o h
    simp only [ccGo] at h
    split at h
    · injection h with h
      subst h
      rfl
    · rw [Option.map_eq_some'] at h
      obtain ⟨o1, h1, h2⟩ := h
      subst h2
      show o1.status = statusOfResult ((step.result :: o1.results).getLastD r)
      rw [List.getLastD_cons]
      exact ih _ _ _ _ h1

/-- In a terminating run the loader field reads the empty string at the end
of every iteration (the driver clears it before the next check). -/
theorem ccGo_post_states (script : List LaunchStep) :
    ∀ (next ld : String) (r : Int) (o : CCOutcome),
      ccGo script next ld r = some o →
        o.post_states.all (fun p => p == "") = true := by
  induction script with
  | nil =>
    intro next ld r o h
    simp only [ccGo] at h
    split at h
    · injection h with h
      subst h
      rfl
    · simp at h
  | cons step rest ih =>
    intro next ld r o h
    simp only [ccGo] at h
    split at h
    · injection h with h
      subst h
      rfl
    · rw [Option.map_eq_some'] at h
      obtain ⟨o1, h1, h2⟩ := h
      subst h2
      simpa [List.all_cons] using ih _ _ _ _ h1

/-- A terminating run performs at most one more iteration than the script
holds redirect requests (steps whose post-launch loader field is
non-empty). -/
theorem ccGo_iterations (script : List LaunchStep) :
    ∀ (next ld : String) (r : Int) (o : CCOutcome),
      ccGo script next ld r = some o →
        o.iterations ≤
          (script.filter fun s => s.requested != "").length + 1 := by
  induction script with
  | nil =>
    intro next ld r o h
    simp only [ccGo] at h
    split at h
    · injection h with h
      subst h
      simp
    · simp at h
  | cons step rest ih =>
    intro next ld r o h
    simp only [ccGo] at h
    split at h
    · injection h with h
      subst h
      simp
    · rw [Option.map_eq_some'] at h
      obtain ⟨o1, h1, h2⟩ := h
      subst h2
      by_cases hreq : step.requested = ""
      · rw [hreq, ccGo_loop_done] at h1
        injection h1 with h1
        subst h1
        simp
      · have hle := ih _ _ _ _ h1
        simp only [List.filter_cons]
        have : (step.requested != "") = true := by
          simpa using hreq
        simp only [this, if_true, List.length_cons]
        simpa using Nat.add_le_add_right hle 1

/-! ## Claim theorems -/

/-- C1 (counterexample): the claim as stated is false.  With a null
Debugger object (the debug flag off), no foreign debugger, and a program
counter inside the guest code region — so "the emulator's own Debugger is
not attached and no foreign debugger is attached" holds — the callback
returns not-handled from its first branch (`!debugger() || ...`): no thread
is suspended and no dialog round-trip is performed, instead of entering
guest-crash containment. -/
theorem c1_null_debugger_counterexample :
    ownDebuggerAttached c1NullDebuggerEnv = false ∧
    c1NullDebuggerEnv.foreign_attached = false ∧
    c1NullDebuggerEnv.code_base ≤ c1NullDebuggerEnv.pc ∧
    c1NullDebuggerEnv.pc <
      c1NullDebuggerEnv.code_base + c1NullDebuggerEnv.code_size ∧
    (ExceptionCallback c1NullDebuggerEnv).result = false ∧
    (ExceptionCallback c1NullDebuggerEnv).suspended_other = [] ∧
    (ExceptionCallback c1NullDebuggerEnv).self_suspended = false ∧
    (ExceptionCallback c1NullDebuggerEnv).dialogs = 0 := by
  decide

/-- C1 (amended): for every host exception whose program counter lies
inside `[code_base, code_base + code_size)`, when the emulator's Debugger
object EXISTS but is not attached and no foreign debugger is attached, the
callback enters guest-crash containment: every debugger-suspendable guest
thread other than the faulting one is suspended, the faulting thread itself
is suspended, and exactly one synchronous dialog round-trip is performed. -/
theorem c1_containment_when_debugger_unattached (e : ExcEnv) (d : DebuggerObj)
    (hd : e.debugger = some d) (ha : d.is_attached = false)
    (hf : e.foreign_attached = false)
    (hlo : e.code_base ≤ e.pc) (hhi : e.pc < e.code_base + e.code_size) :
    (∀ t ∈ e.threads, t.can_debugger_suspend = true →
      t.tid ≠ e.current_tid →
        t.tid ∈ (ExceptionCallback e).suspended_other) ∧
    (ExceptionCallback e).self_suspended = true ∧
    (ExceptionCallback e).dialogs = 1 := by
  have hcall : ExceptionCallback e =
      { result := false
        suspended_other :=
          (e.threads.filter fun t =>
            t.can_debugger_suspend && t.tid != e.current_tid).map
            fun t => t.tid
        self_suspended := true
        dialogs := 1 } := by
    unfold ExceptionCallback
    simp [hd, ha, hf, ownDebuggerAttached, hlo, hhi]
  refine ⟨?_, by rw [hcall], by rw [hcall]⟩
  intro t ht hcan hne
  rw [hcall]
  simp only [List.mem_map]
  refine ⟨t, List.mem_filter.2 ⟨ht, ?_⟩, rfl⟩
  simp [hcan, hne]

/-- C1 (witness): in a concrete environment with an unattached Debugger
object, no foreign debugger, an in-region program counter, and suspendable
thread 1 distinct from the faulting thread 0, containment suspends
thread 1, suspends the faulting thread, and posts exactly one dialog. -/
theorem c1_containment_witness :
    1 ∈ (ExceptionCallback c1WitnessEnv).suspended_other ∧
    (ExceptionCallback c1WitnessEnv).self_suspended = true ∧
    (ExceptionCallback c1WitnessEnv).dialogs = 1 :=
  ⟨(c1_containment_when_debugger_unattached c1WitnessEnv ⟨false⟩ rfl rfl rfl
      (by decide) (by decide)).1 ⟨1, true⟩ (by decide) rfl (by decide),
   (c1_containment_when_debugger_unattached c1WitnessEnv ⟨false⟩ rfl rfl rfl
      (by decide) (by decide)).2.1,
   (c1_containment_when_debugger_unattached c1WitnessEnv ⟨false⟩ rfl rfl rfl
      (by decide) (by decide)).2.2⟩

/-- C2 (counterexample): the claim as stated is false.  The path
`game.xex` ends in a recognized module suffix, yet `LaunchPath` takes the
container-image branch, not the bare-module branch: with no path separator
`last_slash` is `npos`, so `last_dot < last_slash` holds and the dot is
discarded. -/
theorem c2_bare_filename_counterexample :
    LaunchPathClassify '/' (String.toList "game.xex") =
      LaunchKind.stfsContainer ∧
    LaunchPathClassify '/' (String.toList "game.xex") ≠
      LaunchKind.xexFile := by
  decide

/-- C2 (amended): `LaunchPath` classifies every path as follows: if the
path contains no '.', or contains no path separator, or its last '.'
occurs before the last path separator, it takes the container-image
branch; else if the extension is `.xex` or `.elf` it takes the bare-module
branch; otherwise the disc-image branch.  Stated as equivalence with a
classifier written from the amended words. -/
theorem c2_classification_amended (sep : Char) (path : List Char) :
    LaunchPathClassify sep path = LaunchPathClassifyAmendedSpec sep path := by
  unfold LaunchPathClassify LaunchPathClassifyAmendedSpec
  rcases hdot : findLastOf path '.' with _ | i <;>
    rcases hsep : findLastOf path sep with _ | d <;>
      simp [nposLT]
  by_cases hlt : i < d <;> simp [hlt]

/-- C3 (code bug): when memory initialization fails, `Setup` executes
`return false;` (emulator.cc line 103) in a function whose return type is
the integral `X_STATUS`, so the returned status is `0`, which is
`X_STATUS_SUCCESS` — the success status, not the generic unsuccessful
status the claim (and every other failure path of `Setup`) calls for. -/
theorem c3_memory_failure_returns_success (e : SetupEnv)
    (h : e.memory_init_ok = false) :
    (Setup e).1 = X_STATUS_SUCCESS ∧
    X_STATUS_SUCCESS ≠ X_STATUS_UNSUCCESSFUL := by
  refine ⟨?_, by decide⟩
  simp [Setup, h, boolToXStatus, X_STATUS_SUCCESS]

/-- C3 (witness): the concrete environment in which only memory
initialization fails makes `Setup` return the success status. -/
theorem c3_memory_failure_witness :
    setupMemFailEnv.memory_init_ok = false ∧
    ((Setup setupMemFailEnv).1 = X_STATUS_SUCCESS ∧
      X_STATUS_SUCCESS ≠ X_STATUS_UNSUCCESSFUL) :=
  ⟨rfl, c3_memory_failure_returns_success setupMemFailEnv rfl⟩

/-- C4 (code bug): the claimed invariant "success implies every owned
subsystem is non-null and initialized" is broken by the same slip as C3:
with memory initialization failing, `Setup` returns the success status
while the Processor, Graphics System, Kernel State (and the rest) are
null and memory is uninitialized. -/
theorem c4_success_with_null_subsystems :
    (Setup setupMemFailEnv).1 = X_STATUS_SUCCESS ∧
    (Setup setupMemFailEnv).2.memory_initialized = false ∧
    (Setup setupMemFailEnv).2.export_resolver = false ∧
    (Setup setupMemFailEnv).2.processor = false ∧
    (Setup setupMemFailEnv).2.graphics_system = false ∧
    (Setup setupMemFailEnv).2.input_system = false ∧
    (Setup setupMemFailEnv).2.file_system = false ∧
    (Setup setupMemFailEnv).2.kernel_state = false := by
  decide

/-- C5 (confirmed): for every terminating `CompleteLaunch` run, the
returned status is derived solely from the last launch attempt's integer
result (the initial `0` when no launch ran): zero yields
`X_STATUS_SUCCESS`, non-zero yields `X_STATUS_UNSUCCESSFUL`, regardless of
earlier iterations' results. -/
theorem c5_status_from_last_result (script : List LaunchStep)
    (module_path loader_path : String) (o : CCOutcome)
    (h : CompleteLaunch script module_path loader_path = some o) :
    o.status = (if o.results.getLastD 0 = 0 then X_STATUS_SUCCESS
                else X_STATUS_UNSUCCESSFUL) := by
  have hs := ccGo_status_last script module_path loader_path 0 o h
  simpa [statusOfResult] using hs

/-- C5 (witness): a two-launch chain whose first launch fails with result 5
and redirects, and whose second launch returns 0, reports the success
status — the earlier failure is ignored. -/
theorem c5_status_witness :
    ccOutcomeChainEx.status =
      (if ccOutcomeChainEx.results.getLastD 0 = 0 then X_STATUS_SUCCESS
       else X_STATUS_UNSUCCESSFUL) :=
  c5_status_from_last_result [⟨5, "chain.xex"⟩, ⟨0, ""⟩] "first.xex" ""
    ccOutcomeChainEx (by decide)

/-- C6 (confirmed): in every terminating `CompleteLaunch` run the loader
field is cleared after being read in every iteration (it reads empty at
the end of each iteration, before the next emptiness check); the loop
performs at most N+1 iterations for N redirect requests in the script; and
a non-empty first module whose launch leaves the field empty yields
exactly one iteration. -/
theorem c6_loop_clearing_and_bounds (script : List LaunchStep)
    (module_path loader_path : String) (o : CCOutcome)
    (h : CompleteLaunch script module_path loader_path = some o) :
    o.post_states.all (fun p => p == "") = true ∧
    o.iterations ≤ (script.filter fun s => s.requested != "").length + 1 ∧
    (module_path ≠ "" → (script.head?.map fun s => s.requested) = some "" →
      o.iterations = 1) := by
  refine ⟨ccGo_post_states script _ _ _ _ h,
          ccGo_iterations script _ _ _ _ h, ?_⟩
  intro hmp hhead
  cases script with
  | nil => simp at hhead
  | cons step rest =>
    have hreq : step.requested = "" := by simpa using hhead
    unfold CompleteLaunch at h
    simp only [ccGo, if_neg hmp] at h
    rw [hreq, ccGo_loop_done, Option.map_some'] at h
    injection h with h
    subst h
    rfl

/-- C6 (witness): a single non-chaining launch yields exactly one
iteration, with the loader field empty after it. -/
theorem c6_loop_witness :
    ccOutcomeSingleEx.post_states.all (fun p => p == "") = true ∧
    ccOutcomeSingleEx.iterations ≤
      (([⟨0, ""⟩] : List LaunchStep).filter
        fun s => s.requested != "").length + 1 ∧
    ("first.xex" ≠ "" →
      (([⟨0, ""⟩] : List LaunchStep).head?.map fun s => s.requested) =
        some "" →
      ccOutcomeSingleEx.iterations = 1) :=
  c6_loop_clearing_and_bounds [⟨0, ""⟩] "first.xex" "" ccOutcomeSingleEx
    (by decide)

/-- C7 (confirmed): for every host exception whose program counter lies
outside the guest code region, when neither the emulator's own debugger
nor a foreign debugger is attached, the callback returns not-handled and
no thread's suspension state is changed (and no dialog is posted). -/
theorem c7_outside_region_not_handled (e : ExcEnv)
    (h1 : ownDebuggerAttached e = false)
    (h2 : e.foreign_attached = false)
    (h3 : ¬(e.code_base ≤ e.pc ∧ e.pc < e.code_base + e.code_size)) :
    ExceptionCallback e =
      { result := false, suspended_other := [], self_suspended := false
        dialogs := 0 } := by
  unfold ExceptionCallback
  cases hd : e.debugger with
  | none => simp [hd]
  | some d =>
    have ha : d.is_attached = false := by
      simpa [ownDebuggerAttached, hd] using h1
    simp [hd, ha, h2, h3, ownDebuggerAttached]

/-- C7 (witness): with no debugger object, no foreign debugger, and a
program counter below the code region, the callback reports not-handled
and suspends nothing. -/
theorem c7_outside_region_witness :
    ExceptionCallback c7Env =
      { result := false, suspended_other := [], self_suspended := false
        dialogs := 0 } :=
  c7_outside_region_not_handled c7Env (by decide) (by decide) (by decide)

/-- C8 (confirmed): on every successful mount, each launch variant binds
both `game:` and `d:` to its single mount point, the bare-module variant
hands `CompleteLaunch` the module path `game:\` + the file's own name, and
the disc-image and container variants hand it the fixed literal
`game:\default.xex`. -/
theorem c8_mount_symlinks_and_targets (env : MountEnv) (sep : Char)
    (path : List Char)
    (h1 : env.device_init_ok = true) (h2 : env.register_ok = true) :
    (LaunchXexFile env sep path).symlinks =
      [("game:", kMountPathHdd), ("d:", kMountPathHdd)] ∧
    (LaunchXexFile env sep path).target =
      some ("game:\\" ++ String.mk (find_name_from_path sep path)) ∧
    (LaunchDiscImage env).symlinks =
      [("game:", kMountPathCdrom), ("d:", kMountPathCdrom)] ∧
    (LaunchDiscImage env).target = some "game:\\default.xex" ∧
    (LaunchStfsContainer env).symlinks =
      [("game:", kMountPathCdrom), ("d:", kMountPathCdrom)] ∧
    (LaunchStfsContainer env).target = some "game:\\default.xex" := by
  simp [LaunchXexFile, LaunchDiscImage, LaunchStfsContainer, h1, h2]

/-- C8 (witness): mounting `/games/foo.xex` binds `game:` and `d:` to the
hard-disk mount point and launches `game:\foo.xex`. -/
theorem c8_mount_witness :
    ((LaunchXexFile ⟨true, true⟩ '/'
        (String.toList "/games/foo.xex")).symlinks =
      [("game:", kMountPathHdd), ("d:", kMountPathHdd)] ∧
     (LaunchXexFile ⟨true, true⟩ '/'
        (String.toList "/games/foo.xex")).target =
      some ("game:\\" ++ String.mk (find_name_from_path '/'
        (String.toList "/games/foo.xex")))) ∧
    (LaunchXexFile ⟨true, true⟩ '/'
        (String.toList "/games/foo.xex")).target =
      some "game:\\foo.xex" :=
  ⟨⟨(c8_mount_symlinks_and_targets ⟨true, true⟩ '/'
      (String.toList "/games/foo.xex") rfl rfl).1,
    (c8_mount_symlinks_and_targets ⟨true, true⟩ '/'
      (String.toList "/games/foo.xex") rfl rfl).2.1⟩,
   by decide⟩

/-- C9 (confirmed): when device initialization or registration fails, every
launch variant returns `X_STATUS_NO_SUCH_FILE` without attempting a module
launch; the bare-module variant only logs the error (no fatal notice),
while the disc-image and container variants raise a user-visible fatal
notice before returning. -/
theorem c9_mount_failure_policy (env : MountEnv) (sep : Char)
    (path : List Char)
    (h : env.device_init_ok = false ∨ env.register_ok = false) :
    ((LaunchXexFile env sep path).status = some X_STATUS_NO_SUCH_FILE ∧
     (LaunchXexFile env sep path).target = none ∧
     (LaunchXexFile env sep path).logged_error = true ∧
     (LaunchXexFile env sep path).fatal_notice = false) ∧
    ((LaunchDiscImage env).status = some X_STATUS_NO_SUCH_FILE ∧
     (LaunchDiscImage env).target = none ∧
     (LaunchDiscImage env).fatal_notice = true) ∧
    ((LaunchStfsContainer env).status = some X_STATUS_NO_SUCH_FILE ∧
     (LaunchStfsContainer env).target = none ∧
     (LaunchStfsContainer env).fatal_notice = true) := by
  rcases h with h | h
  · simp [LaunchXexFile, LaunchDiscImage, LaunchStfsContainer, h]
  · cases hinit : env.device_init_ok <;>
      simp [LaunchXexFile, LaunchDiscImage, LaunchStfsContainer, h, hinit]

/-- C9 (witness): with device initialization failing, all three variants
return the no-such-file status without launching; only the disc and
container variants raise the fatal notice. -/
theorem c9_mount_failure_witness :
    ((LaunchXexFile ⟨false, true⟩ '/'
        (String.toList "/games/foo.xex")).status =
          some X_STATUS_NO_SUCH_FILE ∧
     (LaunchXexFile ⟨false, true⟩ '/'
        (String.toList "/games/foo.xex")).target = none ∧
     (LaunchXexFile ⟨false, true⟩ '/'
        (String.toList "/games/foo.xex")).logged_error = true ∧
     (LaunchXexFile ⟨false, true⟩ '/'
        (String.toList "/games/foo.xex")).fatal_notice = false) ∧
    ((LaunchDiscImage ⟨false, true⟩).status = some X_STATUS_NO_SUCH_FILE ∧
     (LaunchDiscImage ⟨false, true⟩).target = none ∧
     (LaunchDiscImage ⟨false, true⟩).fatal_notice = true) ∧
    ((LaunchStfsContainer ⟨false, true⟩).status =
        some X_STATUS_NO_SUCH_FILE ∧
     (LaunchStfsContainer ⟨false, true⟩).target = none ∧
     (LaunchStfsContainer ⟨false, true⟩).fatal_notice = true) :=
  c9_mount_failure_policy ⟨false, true⟩ '/'
    (String.toList "/games/foo.xex") (Or.inl rfl)

/-- C10 (confirmed): invoking `CompleteLaunch` with an empty first module
path performs zero launch invocations and zero iterations, never reads or
clears the loader field (it is returned unchanged, with no per-iteration
clears recorded), and returns the success status. -/
theorem c10_empty_path_no_iterations (script : List LaunchStep)
    (loader_path : String) :
    CompleteLaunch script "" loader_path =
      some { status := X_STATUS_SUCCESS, final_launch_path := loader_path
             iterations := 0, results := [], post_states := [] } := by
  have h := ccGo_loop_done script loader_path 0
  simpa [CompleteLaunch, statusOfResult] using h

end xe
